import Mathlib

/-!
Shallow embedding of the CeloWallet front-end store logic
(src/services/Store/StoreProvider.tsx, src/services/ApiService/CeloWalletApi,
and the WalletBreakdown component), with theorems settling the spec claims.

Conventions of the embedding:
* JavaScript `undefined` for a value of type T is `Option T` with `none`.
* BigNumber expiry timestamps are `Int` (arbitrary precision integers).
* Fiat amounts and exchange rates are `Rat` (the code uses JS numbers only
  through order comparisons and ring operations, which `Rat` models).
* Promise rejection / try-catch is `Except E A`.
* `Array.prototype.sort` (stable since ES2019) is `List.mergeSort`.
-/

namespace CeloWallet

abbrev TUuid := String
abbrev TAddress := String
abbrev NetworkIdT := String

/-- The four membership display states, from
features/PurchaseMembership/config (MembershipState). -/
inductive MembershipState where
  | ERROR
  | NOTMEMBER
  | MEMBER
  | EXPIRED
deriving DecidableEq, Repr

/-- One entry of a MembershipStatus: the membership type and its expiry
timestamp (a BigNumber in the code). -/
structure MembershipEntry where
  type : String
  expiry : Int
deriving DecidableEq, Repr

/-- MembershipStatus record: an address together with its non-expired-contract
membership entries. -/
structure MembershipStatus where
  address : TAddress
  memberships : List MembershipEntry
deriving DecidableEq, Repr

/-- StoreProvider lines 152-156: `membershipExpirations` flattens all expiry
timestamps of all membership records; an undefined memberships value gives the
empty list. -/
def membershipExpirations (m : Option (List MembershipStatus)) : List Int :=
  match m with
  | none => []
  | some l => (l.map (fun s => s.memberships.map (fun e => e.expiry))).flatten

/-- StoreProvider lines 158-173: classify the memberships value into one of
the four MembershipState values, comparing expiries against the current time
in seconds. -/
def membershipState (m : Option (List MembershipStatus)) (currentTime : Int) :
    MembershipState :=
  match m with
  | none => MembershipState.ERROR
  | some l =>
    if l.length = 0 then MembershipState.NOTMEMBER
    else if (membershipExpirations (some l)).any (fun e => currentTime < e) then
      MembershipState.MEMBER
    else MembershipState.EXPIRED

/-- StoreProvider line 174: `isCeloWalletMember` is true exactly when the
membership state is MEMBER. -/
def isCeloWalletMember (m : Option (List MembershipStatus)) (currentTime : Int) :
    Bool :=
  decide (membershipState m currentTime = MembershipState.MEMBER)

/-- C1: membershipState is ERROR iff memberships is undefined; NOTMEMBER iff
memberships is defined and empty; for a defined non-empty memberships list it
is MEMBER iff some expiry is strictly greater than the current time and
EXPIRED otherwise; and isCeloWalletMember is true iff the state is MEMBER. -/
theorem membershipState_classification
    (m : Option (List MembershipStatus)) (t : Int) :
    (membershipState m t = MembershipState.ERROR ↔ m = none) ∧
    (membershipState m t = MembershipState.NOTMEMBER ↔ m = some []) ∧
    (∀ l, m = some l → l ≠ [] →
      ((membershipState m t = MembershipState.MEMBER ↔
          ∃ e ∈ membershipExpirations m, t < e) ∧
       (membershipState m t = MembershipState.EXPIRED ↔
          ¬ ∃ e ∈ membershipExpirations m, t < e))) ∧
    (isCeloWalletMember m t = true ↔ membershipState m t = MembershipState.MEMBER) := by
  refine ⟨?_, ?_, ?_, ?_⟩
  · cases m with
    | none => simp [membershipState]
    | some l =>
      simp only [membershipState]
      constructor
      · intro h
        by_cases hl : l.length = 0
        · simp [hl] at h
        · by_cases hm : (membershipExpirations (some l)).any (fun e => t < e)
          · simp [hl, hm] at h
          · simp [hl, hm] at h
      · intro h; exact absurd h (by simp)
  · cases m with
    | none => simp [membershipState]
    | some l =>
      by_cases hl : l.length = 0
      · simp [membershipState, hl, List.length_eq_zero.mp hl]
      · have hne : l ≠ [] := fun h => hl (by simp [h])
        simp only [membershipState, if_neg hl, Option.some.injEq]
        by_cases hm : (membershipExpirations (some l)).any (fun e => t < e)
        · simp [hm, hne]
        · simp [hm, hne]
  · rintro l rfl hne
    have hl : ¬ l.length = 0 := by simpa [List.length_eq_zero] using hne
    by_cases hm : (membershipExpirations (some l)).any (fun e => t < e)
    · have hx : ∃ e ∈ membershipExpirations (some l), t < e := by
        simpa [List.any_eq_true] using hm
      simp [membershipState, hl, hm, hx]
    · have hx : ¬ ∃ e ∈ membershipExpirations (some l), t < e := by
        simpa [List.any_eq_true] using hm
      simp [membershipState, hl, hm, hx]
  · simp [isCeloWalletMember]

/-- Witness for the classification theorem at concrete inputs: one record
whose sole expiry 100 exceeds the current time 50, so the state is MEMBER. -/
theorem membershipState_classification_witness :
    membershipState (some [⟨"0xabc", [⟨"lifetime", 100⟩]⟩]) 50 =
      MembershipState.MEMBER ∧
    isCeloWalletMember (some [⟨"0xabc", [⟨"lifetime", 100⟩]⟩]) 50 = true := by
  have h := membershipState_classification
      (some [⟨"0xabc", [⟨"lifetime", 100⟩]⟩]) 50
  obtain ⟨-, -, h3, h4⟩ := h
  have hmem := (h3 [⟨"0xabc", [⟨"lifetime", 100⟩]⟩] rfl (by decide)).1.mpr
      (by exact ⟨100, by decide, by decide⟩)
  exact ⟨hmem, h4.mpr hmem⟩

/-! ## Assets, balances and fiat totals -/

/-- StoreAsset as used by the balance aggregation: uuid, display name,
ticker, wei balance (a BigNumber in the code), decimals, and whether the
asset is the base asset of its network. -/
structure StoreAsset where
  uuid : TUuid
  name : String
  ticker : String
  balance : Nat
  decimal : Nat
  isBase : Bool
deriving DecidableEq, Repr

/-- StoreAccount as used by the balance aggregation: address, label, network,
wallet type and the account's asset list. -/
structure StoreAccount where
  address : TAddress
  label : String
  networkId : NetworkIdT
  wallet : String
  assets : List StoreAsset
deriving DecidableEq, Repr

/-- Modelled from the spec: weiToFloat (from the utils module, not under src)
converts a wei balance to a unit amount by dividing by 10 ^ decimal. -/
def weiToFloat (balance : Nat) (decimal : Nat) : Rat :=
  (balance : Rat) / (10 : Rat) ^ decimal

/-- Modelled from the spec: convertToFiatFromAsset (from the utils module,
not under src) converts an asset balance to fiat; the spec says the
aggregation "converts to fiat by calling an externally supplied rate
function". An absent (undefined) rate contributes 0. -/
def convertToFiatFromAsset (asset : StoreAsset) (rate : Option Rat) : Rat :=
  weiToFloat asset.balance asset.decimal * rate.getD 0

/-- StoreProvider lines 338-339: state.assets flat-maps the asset lists of
the selected accounts. -/
def assetsOfAccounts (selectedAccounts : List StoreAccount) : List StoreAsset :=
  (selectedAccounts.map (fun a => a.assets)).flatten

/-- Modelled from the spec: getTotalByAsset (Store/Asset, not under src)
produces the per-asset totals; the spec says the aggregation "sums asset
balances across accounts", so assets sharing a uuid are merged by adding
their balances. -/
def getTotalByAsset (assets : List StoreAsset) : List StoreAsset :=
  assets.foldl
    (fun acc a =>
      if acc.any (fun b => b.uuid == a.uuid) then
        acc.map (fun b =>
          if b.uuid == a.uuid then { b with balance := b.balance + a.balance }
          else b)
      else acc ++ [a])
    []

/-- StoreProvider lines 342-343: state.totals is the per-asset totals of the
selected accounts' assets. -/
def totals (selectedAccounts : List StoreAccount) : List StoreAsset :=
  getTotalByAsset (assetsOfAccounts selectedAccounts)

/-- StoreProvider lines 344-349: state.totalFiat reduces over the totals,
adding the fiat value of each asset at the supplied rate, starting from 0. -/
def totalFiat (selectedAccounts : List StoreAccount)
    (getAssetRate : StoreAsset → Option Rat) : Rat :=
  (totals selectedAccounts).foldl
    (fun sum asset => sum + convertToFiatFromAsset asset (getAssetRate asset)) 0

/-- Folding addition of a mapped value equals the initial value plus the sum
of the mapped list. -/
theorem foldl_add_map_eq_sum {α : Type} (f : α → Rat) (l : List α) (init : Rat) :
    l.foldl (fun sum a => sum + f a) init = init + (l.map f).sum := by
  induction l generalizing init with
  | nil => simp
  | cons x xs ih => simp [ih, add_assoc]

/-- C3: totalFiat equals the sum, over the per-asset totals of the selected
accounts, of each total converted to fiat by applying getAssetRate to that
asset. -/
theorem totalFiat_eq_sum_of_converted_totals
    (selectedAccounts : List StoreAccount)
    (getAssetRate : StoreAsset → Option Rat) :
    totalFiat selectedAccounts getAssetRate =
      ((totals selectedAccounts).map
        (fun asset => convertToFiatFromAsset asset (getAssetRate asset))).sum := by
  unfold totalFiat
  rw [foldl_add_map_eq_sum, zero_add]

/-! ## WalletBreakdown balances (the unnamed component source) -/

/-- Per-account sub-entry of a Balance (WalletBreakdown lines 192-209). -/
structure BalanceAccount where
  address : TAddress
  ticker : String
  amount : Rat
  fiatValue : Rat
  label : String
deriving DecidableEq, Repr

/-- Balance entry displayed in the chart and balance list (WalletBreakdown
lines 180-212). -/
structure Balance where
  id : String
  name : String
  ticker : String
  uuid : TUuid
  amount : Rat
  fiatValue : Rat
  accounts : List BalanceAccount
deriving DecidableEq, Repr

/-- Modelled from the spec: isExcludedAsset (Store/helpers, not under src) is
the predicate the balance list is filtered with; the spec says the computed
balance list excludes the assets excluded per settings, so the filter keeps
an asset exactly when its uuid is not in settings.excludedAssets. -/
def isExcludedAsset (excludedAssets : List TUuid) (asset : StoreAsset) : Bool :=
  ! excludedAssets.contains asset.uuid

/-- WalletBreakdown lines 182-211: build one Balance entry from an asset
total, with its fiat value at the asset's exchange rate and its per-account
sub-entries. -/
def mkBalance (currentAccounts : List StoreAccount)
    (getAssetRate : StoreAsset → Option Rat) (asset : StoreAsset) : Balance :=
  let exchangeRate := getAssetRate asset
  { id := asset.name ++ "-" ++ asset.ticker
    name := if asset.name = "" then "WALLET_BREAKDOWN_UNKNOWN" else asset.name
    ticker := asset.ticker
    uuid := asset.uuid
    amount := weiToFloat asset.balance asset.decimal
    fiatValue := convertToFiatFromAsset asset exchangeRate
    accounts := currentAccounts.foldl
      (fun acc currAccount =>
        acc ++ (currAccount.assets.filter (fun aa => aa.uuid == asset.uuid)).map
          (fun aa =>
            { address := currAccount.address
              ticker := aa.ticker
              amount := weiToFloat aa.balance aa.decimal
              fiatValue := convertToFiatFromAsset aa exchangeRate
              label := currAccount.label }))
      [] }

/-- WalletBreakdown lines 180-212: the balances list is the per-asset totals
of the current accounts, filtered by the exclusion predicate, mapped to
Balance entries, and sorted by descending fiatValue (the comparator
b.fiatValue - a.fiatValue under the stable Array.prototype.sort). -/
def walletBreakdownBalances (currentAccounts : List StoreAccount)
    (excludedAssets : List TUuid)
    (getAssetRate : StoreAsset → Option Rat) : List Balance :=
  (((totals currentAccounts).filter (fun a => isExcludedAsset excludedAssets a)).map
      (mkBalance currentAccounts getAssetRate)).mergeSort
    (fun a b => decide (b.fiatValue ≤ a.fiatValue))

/-- WalletBreakdown lines 214-216: totalFiatValue sums the fiat values of the
balance entries. -/
def totalFiatValue (balances : List Balance) : Rat :=
  balances.foldl (fun sum asset => sum + asset.fiatValue) 0

/-- C2: the computed balance list contains no entry for an excluded asset,
and its entries are sorted in descending order of fiatValue. -/
theorem walletBreakdownBalances_excludes_and_sorted
    (currentAccounts : List StoreAccount) (excludedAssets : List TUuid)
    (getAssetRate : StoreAsset → Option Rat) :
    (∀ b ∈ walletBreakdownBalances currentAccounts excludedAssets getAssetRate,
        b.uuid ∉ excludedAssets) ∧
    (walletBreakdownBalances currentAccounts excludedAssets getAssetRate).Pairwise
      (fun a b => b.fiatValue ≤ a.fiatValue) := by
  constructor
  · intro b hb
    rw [walletBreakdownBalances, List.mem_mergeSort] at hb
    obtain ⟨a, ha, rfl⟩ := List.mem_map.mp hb
    have hkeep := List.of_mem_filter ha
    simp only [isExcludedAsset, Bool.not_eq_true'] at hkeep
    have hm : a.uuid ∉ excludedAssets := by simpa using hkeep
    simpa [mkBalance] using hm
  · have h := @List.sorted_mergeSort Balance
      (fun a b : Balance => decide (b.fiatValue ≤ a.fiatValue))
      (fun a b c hab hbc => by
        simp only [decide_eq_true_eq] at hab hbc ⊢
        exact le_trans hbc hab)
      (fun a b => by
        simpa using le_total b.fiatValue a.fiatValue)
      (((totals currentAccounts).filter
          (fun a => isExcludedAsset excludedAssets a)).map
        (mkBalance currentAccounts getAssetRate))
    rw [walletBreakdownBalances]
    exact h.imp (fun hab => by simpa using hab)

/-- Witness for the balance-list theorem: one account holding one unit of an
asset u1 with u2 excluded; the resulting entry for u1 is not excluded. -/
theorem walletBreakdownBalances_excludes_and_sorted_witness :
    (mkBalance [⟨"0x1", "Main", "Ethereum", "MNEMONIC",
        [⟨"u1", "Ether", "ETH", 5, 0, true⟩]⟩] (fun _ => some 1)
      ⟨"u1", "Ether", "ETH", 5, 0, true⟩).uuid ∉ ["u2"] :=
  (walletBreakdownBalances_excludes_and_sorted
      [⟨"0x1", "Main", "Ethereum", "MNEMONIC", [⟨"u1", "Ether", "ETH", 5, 0, true⟩]⟩]
      ["u2"] (fun _ => some 1)).1 _
    (List.mem_mergeSort.mpr (by
      simp [totals, assetsOfAccounts, getTotalByAsset, isExcludedAsset]))

/-! ## CeloWalletApiService.getAssets -/

/-- Record of assets keyed by uuid, the shape of the assets.json response
(an association list models the JS object). -/
abbrev AssetRecord := List (TUuid × StoreAsset)

/-- CeloWalletApi.ts lines 25-33: getAssets awaits the HTTP request inside a
try-catch; on success it returns the response data unchanged, and a rejected
request is caught (logged) and the empty mapping is returned. -/
def getAssets (fetchResult : Except String AssetRecord) : AssetRecord :=
  match fetchResult with
  | Except.ok data => data
  | Except.error _ => []

/-- C4: a failing asset fetch yields the empty mapping rather than
propagating the error, and a successful fetch returns the response data
unchanged. -/
theorem getAssets_error_handling (e : String) (data : AssetRecord) :
    getAssets (Except.error e) = [] ∧ getAssets (Except.ok data) = data :=
  ⟨rfl, rfl⟩

/-! ## scanForMemberships -/

/-- Expiry table produced by getUnlockTimestamps and nestedToBigNumberJS: for
each scanned address, the expiry per membership contract (association lists
model JS object key order). -/
abbrev ExpiryTable := List (TAddress × List (String × Int))

/-- StoreProvider lines 220-230: turn the expiry table into membership
records, keeping per address only the contracts with expiry strictly above 0
and dropping addresses left with no entry; contractType is the
MEMBERSHIP_CONTRACTS lookup from the membership config. -/
def newMembershipsOf (contractType : String → String) (expiries : ExpiryTable) :
    List MembershipStatus :=
  (expiries.map (fun p =>
      ({ address := p.1
         memberships := (p.2.filter (fun c => decide (0 < c.2))).map
           (fun c => { type := contractType c.1, expiry := c.2 }) } :
        MembershipStatus))).filter
    (fun m => decide (0 < m.memberships.length))

/-- The lodash unionBy merge keyed on address: keeps, in order, the first
record seen for each address, drawing from the first list then the second. -/
def unionByAddress (xs ys : List MembershipStatus) : List MembershipStatus :=
  (xs ++ ys).foldl
    (fun acc m =>
      if acc.any (fun n => n.address == m.address) then acc else acc ++ [m])
    []

/-- StoreProvider lines 208-234: the memberships value resulting from one
scan, as a function of the timestamp-lookup outcome and the previous value.
A rejected lookup is caught and sets memberships to undefined (the chained
continuation then throws on the undefined value before any further update);
a successful lookup merges the new records into the previous ones by
address. -/
def scanForMembershipsResult (contractType : String → String)
    (lookup : Except String ExpiryTable)
    (prev : Option (List MembershipStatus)) : Option (List MembershipStatus) :=
  match lookup with
  | Except.error _ => none
  | Except.ok expiries =>
      some (unionByAddress (newMembershipsOf contractType expiries) (prev.getD []))

/-- C5: a failed timestamp lookup sets the memberships state to undefined,
and an undefined memberships value maps to the ERROR membership state. -/
theorem scanFailure_maps_to_error (contractType : String → String) (e : String)
    (prev : Option (List MembershipStatus)) (t : Int) :
    scanForMembershipsResult contractType (Except.error e) prev = none ∧
    membershipState none t = MembershipState.ERROR :=
  ⟨rfl, rfl⟩

/-! ## Polling periods -/

/-- StoreProvider line 195: the period, in milliseconds, of the
balance-refresh useInterval. -/
def balancePollPeriodMs : Nat := 60000

/-- StoreProvider line 306: the period, in milliseconds, of the pending
transaction status setInterval, written 5 * 1000 in the code. -/
def txStatusPollPeriodMs : Nat := 5 * 1000

/-- C7: the balance-refresh poll runs every 60 seconds and the pending
transaction status poll every 5 seconds. -/
theorem poll_periods :
    balancePollPeriodMs = 60000 ∧ txStatusPollPeriodMs = 5000 := by decide

/-! ## The pending-transaction status poller -/

/-- Network record carried inside a pending transaction object. -/
structure NetworkRec where
  id : NetworkIdT
deriving DecidableEq, Repr

/-- Pending transaction object (ITxReceipt) as read by the poller: hash, its
network (undefined when missing), the optional sender account recorded at
send time, and the optional transaction type. -/
structure PendingTx where
  hash : String
  network : Option NetworkRec
  senderAccount : Option StoreAccount
  txType : Option String
deriving Repr

/-- Receipt produced by fromTxReceiptObj: hash, block number and sender
address. -/
structure FullReceipt where
  hash : String
  blockNumber : Nat
  sender : TAddress
deriving DecidableEq, Repr

/-- The record added to the sender account on confirmation: the receipt with
its transaction type, the block timestamp, and the status stage. -/
structure CompletedTx where
  receipt : FullReceipt
  txType : String
  timestamp : Nat
  stage : String
deriving DecidableEq, Repr

/-- StoreProvider lines 265-306: processing of one pending transaction in one
poll round, over an abstract account-state type St. Each network lookup
enters as its result: getTransactionByHash, fromTxReceiptObj, getTxStatus and
getTimestampFromBlockNum return none on failed lookups (undefined in the
code). addNewTransactionToAccount is the AccountContext updater, passed as a
function. The DEFIZAP and PURCHASE_MEMBERSHIP rescans that may follow a
confirmation touch token and membership state, not the transaction record,
and are outside this state. Returns the account state after the round. -/
def processPendingTx {St : Type}
    (addNewTransactionToAccount : Option StoreAccount → CompletedTx → St → St)
    (getAccountByAddressAndNetworkName : TAddress → NetworkIdT → Option StoreAccount)
    (getTransactionByHash : String → Option FullReceipt)
    (fromTxReceiptObj : FullReceipt → Option FullReceipt)
    (getTxStatus : String → Option String)
    (getTimestampFromBlockNum : Nat → Option Nat)
    (isMounted : Bool) (tx : PendingTx) (st : St) : St :=
  match tx.network with
  | none => st
  | some nw =>
    match getTransactionByHash tx.hash with
    | none => st
    | some transactionReceipt =>
      match fromTxReceiptObj transactionReceipt with
      | none => st
      | some receipt =>
        match getTxStatus receipt.hash,
            getTimestampFromBlockNum receipt.blockNumber with
        | some txStatus, some txTimestamp =>
          if isMounted then
            addNewTransactionToAccount
              (tx.senderAccount.orElse
                (fun _ => getAccountByAddressAndNetworkName receipt.sender nw.id))
              { receipt := receipt
                txType := tx.txType.getD "STANDARD"
                timestamp := txTimestamp
                stage := txStatus } st
          else st
        | _, _ => st

/-- C6: in one poll round, the account state changes (the transaction is
added to the sender account with its looked-up timestamp and stage) only when
the receipt lookup, the receipt conversion, the status lookup and the
block-timestamp lookup all succeed; whenever any of them returns undefined,
the state is unchanged. -/
theorem processPendingTx_updates_only_on_success {St : Type}
    (add : Option StoreAccount → CompletedTx → St → St)
    (getAcct : TAddress → NetworkIdT → Option StoreAccount)
    (getTxByHash : String → Option FullReceipt)
    (fromRcpt : FullReceipt → Option FullReceipt)
    (getStatus : String → Option String)
    (getBlockTime : Nat → Option Nat)
    (tx : PendingTx) (st : St) :
    (tx.network = none →
      processPendingTx add getAcct getTxByHash fromRcpt getStatus getBlockTime
        true tx st = st) ∧
    (∀ nw, tx.network = some nw →
      (getTxByHash tx.hash = none →
        processPendingTx add getAcct getTxByHash fromRcpt getStatus getBlockTime
          true tx st = st) ∧
      (∀ tr, getTxByHash tx.hash = some tr →
        (fromRcpt tr = none →
          processPendingTx add getAcct getTxByHash fromRcpt getStatus
            getBlockTime true tx st = st) ∧
        (∀ receipt, fromRcpt tr = some receipt →
          (getStatus receipt.hash = none →
            processPendingTx add getAcct getTxByHash fromRcpt getStatus
              getBlockTime true tx st = st) ∧
          (getBlockTime receipt.blockNumber = none →
            processPendingTx add getAcct getTxByHash fromRcpt getStatus
              getBlockTime true tx st = st) ∧
          (∀ txStatus txTimestamp, getStatus receipt.hash = some txStatus →
            getBlockTime receipt.blockNumber = some txTimestamp →
            processPendingTx add getAcct getTxByHash fromRcpt getStatus
                getBlockTime true tx st =
              add (tx.senderAccount.orElse
                    (fun _ => getAcct receipt.sender nw.id))
                { receipt := receipt
                  txType := tx.txType.getD "STANDARD"
                  timestamp := txTimestamp
                  stage := txStatus } st)))) := by
  constructor
  · intro h; simp [processPendingTx, h]
  · intro nw hnw
    refine ⟨fun h => by simp [processPendingTx, hnw, h], ?_⟩
    intro tr htr
    refine ⟨fun h => by simp [processPendingTx, hnw, htr, h], ?_⟩
    intro receipt hrc
    refine ⟨fun h => by simp [processPendingTx, hnw, htr, hrc, h],
            fun h => by simp [processPendingTx, hnw, htr, hrc, h], ?_⟩
    · intro txStatus txTimestamp hs ht
      simp [processPendingTx, hnw, htr, hrc, hs, ht]

/-- Witness for the poll-round theorem: with every lookup succeeding on a
concrete transaction, the round adds the completed transaction, here counted
by an update function that increments a counter state. -/
theorem processPendingTx_updates_only_on_success_witness :
    @processPendingTx Nat (fun _ _ n => n + 1) (fun _ _ => none)
      (fun h => some ⟨h, 7, "0xsender"⟩) (fun r => some r) (fun _ => some "SUCCESS")
      (fun _ => some 1234) true ⟨"0xhash", some ⟨"Ethereum"⟩, none, none⟩ 0 = 1 :=
  ((((@processPendingTx_updates_only_on_success Nat (fun _ _ n => n + 1)
      (fun _ _ => none) (fun h => some ⟨h, 7, "0xsender"⟩) (fun r => some r)
      (fun _ => some "SUCCESS") (fun _ => some 1234)
      ⟨"0xhash", some ⟨"Ethereum"⟩, none, none⟩ 0).2 ⟨"Ethereum"⟩ rfl).2
      ⟨"0xhash", 7, "0xsender"⟩ rfl).2 ⟨"0xhash", 7, "0xsender"⟩ rfl).2.2
    "SUCCESS" 1234 rfl rfl

/-- StoreProvider lines 183-193: the completion handler of the balance poll.
It returns the argument passed to updateAccountsBalances when that call is
made, and none when no state update is performed: the update runs only while
the mounted flag is still set and the fetched balances differ from the
current ones (isArrayEqual is deep equality; filter(Boolean) drops the null
entries before comparing). -/
def balancePollCompletion (isMounted : Bool)
    (currentAccounts : List StoreAccount)
    (accountsWithBalances : List (Option StoreAccount)) :
    Option (List (Option StoreAccount)) :=
  if isMounted ∧ ¬ currentAccounts = accountsWithBalances.filterMap id then
    some accountsWithBalances
  else none

/-- C8: once the mounted flag is cleared, no state update is performed: the
balance-poll completion never calls updateAccountsBalances, and the
transaction-status completion never calls addNewTransactionToAccount. -/
theorem unmounted_completions_do_not_update {St : Type}
    (currentAccounts : List StoreAccount)
    (accountsWithBalances : List (Option StoreAccount))
    (add : Option StoreAccount → CompletedTx → St → St)
    (getAcct : TAddress → NetworkIdT → Option StoreAccount)
    (getTxByHash : String → Option FullReceipt)
    (fromRcpt : FullReceipt → Option FullReceipt)
    (getStatus : String → Option String)
    (getBlockTime : Nat → Option Nat)
    (tx : PendingTx) (st : St) :
    balancePollCompletion false currentAccounts accountsWithBalances = none ∧
    processPendingTx add getAcct getTxByHash fromRcpt getStatus getBlockTime
      false tx st = st := by
  constructor
  · simp [balancePollCompletion]
  · unfold processPendingTx
    repeat' split
    all_goals simp_all

/-! ## Account deletion, restoration and creation -/

/-- One asset entry of a raw account: the asset uuid, the balance string and
the modification time. -/
structure AssetEntry where
  uuid : TUuid
  balance : String
  mtime : Nat
deriving DecidableEq, Repr

/-- Account data apart from the uuid (the rest-spread taken in
restoreDeletedAccount and the IRawAccount shape built by addAccount). The
wallet type is optional because addAccount accepts an undefined account
type. -/
structure AccountData where
  address : TAddress
  networkId : NetworkIdT
  wallet : Option String
  dPath : String
  assets : List AssetEntry
  transactions : List String
  favorite : Bool
  mtime : Nat
deriving DecidableEq, Repr

/-- A stored account (IAccount): its uuid together with its data. -/
structure IAccount where
  uuid : TUuid
  data : AccountData
deriving DecidableEq, Repr

/-- Modelled from the spec: deleteAccount (AccountContext, not under src)
removes the account record from the accounts collection; the spec describes
accounts as plain records mutated through framework state setters. -/
def deleteAccount (account : IAccount) (accounts : List IAccount) :
    List IAccount :=
  accounts.filter (fun a => ! a.uuid == account.uuid)

/-- Modelled from the spec: createAccountWithID (AccountContext, not under
src) creates an account record holding the given data under the given id. -/
def createAccountWithID (data : AccountData) (uuid : TUuid)
    (accounts : List IAccount) : List IAccount :=
  accounts ++ [{ uuid := uuid, data := data }]

/-- The slice of store state the account cache operations touch: the accounts
collection, the restore slots (a JS object whose absent and undefined keys
coincide), the dashboard-account uuids from settings, and the memberships
value. -/
structure StoreState where
  accounts : List IAccount
  accountRestore : TUuid → Option IAccount
  dashboardAccounts : List TUuid
  memberships : Option (List MembershipStatus)

/-- StoreProvider lines 361-368: deleting an account saves it in its restore
slot, removes it from the accounts collection, drops its uuid from the
dashboard accounts, and drops its membership records by address (an undefined
memberships value stays undefined under the optional chaining). -/
def deleteAccountFromCache (st : StoreState) (account : IAccount) :
    StoreState :=
  { accounts := deleteAccount account st.accounts
    accountRestore := fun k =>
      if k = account.uuid then some account else st.accountRestore k
    dashboardAccounts :=
      st.dashboardAccounts.filter (fun u => ! u == account.uuid)
    memberships := st.memberships.map
      (fun l => l.filter (fun s => ! s.address == account.data.address)) }

/-- StoreProvider lines 369-378: restoring by id looks up the restore slot;
an empty slot throws without touching any state, otherwise the account is
re-created from the saved data under the saved uuid and the slot is set back
to undefined. -/
def restoreDeletedAccount (st : StoreState) (accountId : TUuid) :
    Except String StoreState :=
  match st.accountRestore accountId with
  | none =>
      Except.error "Unable to restore account! No account with id specified."
  | some account =>
      Except.ok
        { accounts := createAccountWithID account.data account.uuid st.accounts
          accountRestore := fun k =>
            if k = account.uuid then none else st.accountRestore k
          dashboardAccounts := st.dashboardAccounts
          memberships := st.memberships }

/-- C9: restoring right after deleting re-creates the account with the same
uuid and the same data and clears its restore slot; restoring an id with no
cached account throws and produces no new state. -/
theorem delete_restore_roundtrip (st : StoreState) (account : IAccount)
    (badId : TUuid) (hbad : st.accountRestore badId = none) :
    (∃ st2, restoreDeletedAccount (deleteAccountFromCache st account)
        account.uuid = Except.ok st2 ∧
      account ∈ st2.accounts ∧
      st2.accountRestore account.uuid = none) ∧
    restoreDeletedAccount st badId =
      Except.error "Unable to restore account! No account with id specified." := by
  constructor
  · have hslot : (deleteAccountFromCache st account).accountRestore account.uuid
        = some account := by
      simp [deleteAccountFromCache]
    have hre : restoreDeletedAccount (deleteAccountFromCache st account)
        account.uuid =
      Except.ok
        { accounts := createAccountWithID account.data account.uuid
            (deleteAccountFromCache st account).accounts
          accountRestore := fun k =>
            if k = account.uuid then none
            else (deleteAccountFromCache st account).accountRestore k
          dashboardAccounts := (deleteAccountFromCache st account).dashboardAccounts
          memberships := (deleteAccountFromCache st account).memberships } := by
      unfold restoreDeletedAccount
      rw [hslot]
    exact ⟨_, hre, by simp [createAccountWithID], by simp⟩
  · unfold restoreDeletedAccount
    rw [hbad]

/-- Witness for the round trip at a concrete state: deleting and restoring an
account from the empty store; the empty store has no cached account under any
id, so restoring from it throws. -/
theorem delete_restore_roundtrip_witness :
    (∃ st2,
      restoreDeletedAccount
          (deleteAccountFromCache
            { accounts := [], accountRestore := fun _ => none,
              dashboardAccounts := [], memberships := some [] }
            ⟨"id1", ⟨"0x1", "Ethereum", some "MNEMONIC", "m", [], [], false, 0⟩⟩)
          "id1" = Except.ok st2 ∧
      (⟨"id1", ⟨"0x1", "Ethereum", some "MNEMONIC", "m", [], [], false, 0⟩⟩ :
          IAccount) ∈ st2.accounts ∧
      st2.accountRestore "id1" = none) ∧
    restoreDeletedAccount
        { accounts := [], accountRestore := fun _ => none,
          dashboardAccounts := [], memberships := some [] } "missing" =
      Except.error "Unable to restore account! No account with id specified." :=
  delete_restore_roundtrip
    { accounts := [], accountRestore := fun _ => none,
      dashboardAccounts := [], memberships := some [] }
    ⟨"id1", ⟨"0x1", "Ethereum", some "MNEMONIC", "m", [], [], false, 0⟩⟩
    "missing" rfl

/-! ## addAccount -/

/-- Network record as used by addAccount: its id and the uuid of its default
asset template. -/
structure Network where
  id : NetworkIdT
  defaultAssetUuid : TUuid
deriving DecidableEq, Repr

/-- Address book entry (AddressBook). -/
structure AddressBook where
  label : String
  address : TAddress
  notes : String
  network : NetworkIdT
deriving DecidableEq, Repr

/-- Modelled from the spec: getNetworkById (Store/Network, not under src)
finds the network with the given id among the known networks. -/
def getNetworkById (networkId : NetworkIdT) (networks : List Network) :
    Option Network :=
  networks.find? (fun n => n.id == networkId)

/-- Modelled from the spec: getAccountByAddressAndNetworkName
(AccountContext, not under src) finds an existing account with the given
address on the given network. -/
def getAccountByAddressAndNetworkName (accounts : List IAccount)
    (address : TAddress) (networkId : NetworkIdT) : Option IAccount :=
  accounts.find? (fun a => a.data.address == address && a.data.networkId == networkId)

/-- Modelled from the spec: getNewDefaultAssetTemplateByNetwork (Store/Asset,
not under src) yields the default asset template of the network; here its
uuid, which is all the raw account entry records. -/
def getNewDefaultAssetTemplateByNetwork (network : Network) : TUuid :=
  network.defaultAssetUuid

/-- Modelled from the spec: generateAccountUUID (from the utils module, not
under src) derives the account uuid deterministically from the network id and
the address. -/
def generateAccountUUID (networkId : NetworkIdT) (address : TAddress) : TUuid :=
  networkId ++ ":" ++ address

/-- Result of one addAccount call: the returned raw account (undefined on the
early return) and the accounts and contacts collections afterwards. -/
structure AddAccountResult where
  returned : Option AccountData
  accounts : List IAccount
  contacts : List AddressBook
deriving Repr

/-- StoreProvider lines 379-421: addAccount returns undefined and creates
nothing when the network id is unknown, the address is empty, or an account
with that address and network exists; otherwise it builds the raw account
(one asset entry holding the network's default asset with balance "0", no
transactions, not favorite, mtime 0), updates or creates the address-book
entry, creates the account under the generated uuid, and returns the raw
account. nextLabel stands for findNextUnusedDefaultLabel and web3ConfigId
for the wallet id of the web3 config, both outside src; now is Date.now(). -/
def addAccount (networks : List Network) (accounts : List IAccount)
    (contacts : List AddressBook)
    (nextLabel : Option String → List AddressBook → String)
    (web3ConfigId : String) (now : Nat) (networkId : NetworkIdT)
    (address : TAddress) (accountType : Option String) (dPath : String) :
    AddAccountResult :=
  match getNetworkById networkId networks with
  | none => { returned := none, accounts := accounts, contacts := contacts }
  | some network =>
    if address = "" ∨
        (getAccountByAddressAndNetworkName accounts address networkId).isSome then
      { returned := none, accounts := accounts, contacts := contacts }
    else
      let walletType :=
        if accountType == some "WEB3" then some web3ConfigId else accountType
      let newAssetUuid := getNewDefaultAssetTemplateByNetwork network
      let accountUUID := generateAccountUUID networkId address
      let account : AccountData :=
        { address := address
          networkId := networkId
          wallet := walletType
          dPath := dPath
          assets := [{ uuid := newAssetUuid, balance := "0", mtime := now }]
          transactions := []
          favorite := false
          mtime := 0 }
      let isMatch : AddressBook → Bool :=
        fun c => c.address == address && c.network == networkId
      let newContacts :=
        match contacts.find? isMatch with
        | some _ =>
            contacts.map (fun c =>
              if isMatch c then { c with label := nextLabel walletType contacts }
              else c)
        | none =>
            contacts ++
              [{ label := nextLabel walletType contacts, address := address,
                 notes := "", network := networkId }]
      { returned := some account
        accounts := createAccountWithID account accountUUID accounts
        contacts := newContacts }

/-- C10: addAccount returns undefined and creates nothing when the network id
does not resolve, the address is empty, or the account already exists;
otherwise the returned raw account has exactly one asset entry, the network's
default asset with balance "0", and an empty transactions list. -/
theorem addAccount_guard_and_shape (networks : List Network)
    (accounts : List IAccount) (contacts : List AddressBook)
    (nextLabel : Option String → List AddressBook → String)
    (web3ConfigId : String) (now : Nat) (networkId : NetworkIdT)
    (address : TAddress) (accountType : Option String) (dPath : String) :
    ((getNetworkById networkId networks = none ∨ address = "" ∨
        (getAccountByAddressAndNetworkName accounts address networkId).isSome) →
      addAccount networks accounts contacts nextLabel web3ConfigId now
          networkId address accountType dPath =
        { returned := none, accounts := accounts, contacts := contacts }) ∧
    (∀ network, getNetworkById networkId networks = some network →
      address ≠ "" →
      getAccountByAddressAndNetworkName accounts address networkId = none →
      ∃ acct,
        (addAccount networks accounts contacts nextLabel web3ConfigId now
            networkId address accountType dPath).returned = some acct ∧
        acct.assets =
          [{ uuid := network.defaultAssetUuid, balance := "0", mtime := now }] ∧
        acct.transactions = []) := by
  constructor
  · intro h
    rcases h with h | h | h
    · simp [addAccount, h]
    · cases hn : getNetworkById networkId networks with
      | none => simp [addAccount, hn]
      | some network => simp [addAccount, hn, h]
    · cases hn : getNetworkById networkId networks with
      | none => simp [addAccount, hn]
      | some network => simp [addAccount, hn, h]
  · intro network hn hne hnone
    have hres : (addAccount networks accounts contacts nextLabel web3ConfigId now
        networkId address accountType dPath).returned =
      some
        { address := address
          networkId := networkId
          wallet :=
            if accountType == some "WEB3" then some web3ConfigId else accountType
          dPath := dPath
          assets :=
            [{ uuid := network.defaultAssetUuid, balance := "0", mtime := now }]
          transactions := []
          favorite := false
          mtime := 0 } := by
      simp [addAccount, hn, hne, hnone, getNewDefaultAssetTemplateByNetwork]
    exact ⟨_, hres, rfl, rfl⟩

/-- Witness for the addAccount theorem at concrete inputs: an unknown network
yields the untouched early-return result, while adding a fresh address on a
known network returns an account holding exactly the default asset with
balance "0" and no transactions. -/
theorem addAccount_guard_and_shape_witness :
    (addAccount [⟨"Ethereum", "uEth"⟩] [] [] (fun _ _ => "Account 1") "WEB3"
        99 "NoSuchNet" "0x1" none "m" =
      { returned := none, accounts := [], contacts := [] }) ∧
    (∃ acct,
      (addAccount [⟨"Ethereum", "uEth"⟩] [] [] (fun _ _ => "Account 1") "WEB3"
          99 "Ethereum" "0x1" none "m").returned = some acct ∧
      acct.assets = [{ uuid := "uEth", balance := "0", mtime := 99 }] ∧
      acct.transactions = []) :=
  ⟨(addAccount_guard_and_shape [⟨"Ethereum", "uEth"⟩] [] []
      (fun _ _ => "Account 1") "WEB3" 99 "NoSuchNet" "0x1" none "m").1
      (Or.inl rfl),
   (addAccount_guard_and_shape [⟨"Ethereum", "uEth"⟩] [] []
      (fun _ _ => "Account 1") "WEB3" 99 "Ethereum" "0x1" none "m").2
      ⟨"Ethereum", "uEth"⟩ rfl (by decide) rfl⟩

end CeloWallet
